import Mathlib

/-!
Shallow embedding of `smarthr_mcp_server/smarthr_client.py`: the request
models with their validators, and the `SmartHRClient` operations.  HTTP is
modelled by passing a network oracle `net : HttpRequest → HttpResponse`;
each operation returns the list of requests it issued together with its
outcome (`Except PyError JValue`, where Python `None` is `JValue.jnull`).
-/

/-- JSON values, used for query parameters, request bodies and responses. -/
inductive JValue where
  | jnull : JValue
  | jbool : Bool → JValue
  | jnum : Int → JValue
  | jstr : String → JValue
  | jarr : List JValue → JValue
  | jobj : List (String × JValue) → JValue

/-- One HTTP request as assembled by the client: method, path (relative to
the base URL), query parameters and optional JSON body. -/
structure HttpRequest where
  method : String
  path : String
  params : List (String × JValue)
  body : Option JValue

/-- A remote response: status code, raw text, and the parsed JSON body
(`none` when the text is not valid JSON, so that `response.json()` fails). -/
structure HttpResponse where
  status : Nat
  text : String
  jsonBody : Option JValue

/-- The error outcomes a client call can surface. -/
inductive PyError where
  | httpError : Nat → String → PyError
  | valueError : String → PyError
  | jsonDecodeError : PyError
deriving DecidableEq, Repr

/-- `response.raise_for_status()`: raises `HTTPError` exactly for
status codes in `[400, 600)`, carrying the status and the body text. -/
def raiseForStatusE (r : HttpResponse) : Except PyError Unit :=
  if 400 ≤ r.status ∧ r.status < 600 then
    Except.error (PyError.httpError r.status r.text)
  else Except.ok ()

/-- `response.json()`: the parsed body, or a decode error. -/
def respJson (r : HttpResponse) : Except PyError JValue :=
  match r.jsonBody with
  | some v => Except.ok v
  | none => Except.error PyError.jsonDecodeError

/-- Key lookup in a JSON-object association list (first match wins, as in a
Python dict, whose keys are unique). -/
def lookupP (k : String) (ps : List (String × JValue)) : Option JValue :=
  (ps.find? (fun p => p.1 == k)).map (fun p => p.2)

/-- One entry of the updated dict: its value is replaced when `upd` also
carries its key. -/
def updEntry (upd : List (String × JValue)) (p : String × JValue) :
    String × JValue :=
  match upd.find? (fun q => q.1 == p.1) with
  | some q => (p.1, q.2)
  | none => p

/-- Whether an entry of `upd` introduces a key absent from `base`. -/
def keptEntry (base : List (String × JValue)) (q : String × JValue) : Bool :=
  ! base.any (fun p => p.1 == q.1)

/-- Python `dict.update`: entries of `base` keep their place with the value
overridden by `upd` when `upd` has the same key; keys of `upd` absent from
`base` are appended. -/
def dictUpdate (base upd : List (String × JValue)) : List (String × JValue) :=
  base.map (updEntry upd) ++ upd.filter (keptEntry base)

/-- Python `d.get k == []`: `d` is a dict and its `k` entry is the empty
list (an absent key yields `None`, which is not `[]`). -/
def getsEmptyList (v : JValue) (k : String) : Bool :=
  match v with
  | JValue.jobj fields =>
    match lookupP k fields with
    | some (JValue.jarr []) => true
    | _ => false
  | _ => false

/-- A network oracle answering every request with the same response. -/
def constNet (r : HttpResponse) : HttpRequest → HttpResponse := fun _ => r

/-! ## Request-model validators -/

/-- `JobTitleCreateRequest.validate_rank`: the rank must lie in `[1, 99999]`. -/
def JobTitleCreateRequest.validate_rank (v : Int) : Except String Int :=
  if v < 1 ∨ v > 99999 then Except.error "job title rank must be in 1..99999"
  else Except.ok v

/-- `JobTitleUpdateRequest.validate_rank`: identical check. -/
def JobTitleUpdateRequest.validate_rank (v : Int) : Except String Int :=
  if v < 1 ∨ v > 99999 then Except.error "job title rank must be in 1..99999"
  else Except.ok v

/-- `JobTitlePartialUpdateRequest.validate_rank`: the check is applied only
when a rank is supplied (`v is not None`). -/
def JobTitlePartialUpdateRequest.validate_rank (v : Option Int) :
    Except String (Option Int) :=
  match v with
  | none => Except.ok none
  | some x =>
    if x < 1 ∨ x > 99999 then Except.error "job title rank must be in 1..99999"
    else Except.ok (some x)

/-- `GradeCreateRequest.validate_rank`. -/
def GradeCreateRequest.validate_rank (v : Int) : Except String Int :=
  if v < 1 ∨ v > 99999 then Except.error "grade rank must be in 1..99999"
  else Except.ok v

/-- `GradeUpdateRequest.validate_rank`. -/
def GradeUpdateRequest.validate_rank (v : Int) : Except String Int :=
  if v < 1 ∨ v > 99999 then Except.error "grade rank must be in 1..99999"
  else Except.ok v

/-- `GradePartialUpdateRequest.validate_rank`. -/
def GradePartialUpdateRequest.validate_rank (v : Option Int) :
    Except String (Option Int) :=
  match v with
  | none => Except.ok none
  | some x =>
    if x < 1 ∨ x > 99999 then Except.error "grade rank must be in 1..99999"
    else Except.ok (some x)

/-- `DepartmentCreateRequest.validate_name`: the name must not contain `/`. -/
def DepartmentCreateRequest.validate_name (v : String) : Except String String :=
  if v.contains '/' then Except.error "department name must not contain a slash"
  else Except.ok v

/-- `DepartmentUpdateRequest.validate_name`: identical check. -/
def DepartmentUpdateRequest.validate_name (v : String) : Except String String :=
  if v.contains '/' then Except.error "department name must not contain a slash"
  else Except.ok v

/-- `DepartmentPartialUpdateRequest.validate_name`: applied only when a name
is supplied. -/
def DepartmentPartialUpdateRequest.validate_name (v : Option String) :
    Except String (Option String) :=
  match v with
  | none => Except.ok none
  | some s =>
    if s.contains '/' then Except.error "department name must not contain a slash"
    else Except.ok (some s)

/-- `DependentCreateRequest.validate_gender`: only the literals `male` and
`female` are accepted. -/
def DependentCreateRequest.validate_gender (v : String) : Except String String :=
  if v = "male" ∨ v = "female" then Except.ok v
  else Except.error "gender must be male or female"

/-- `LiveTogetherType`, a two-valued string enum. -/
inductive LiveTogetherType where
  | living_together : LiveTogetherType
  | living_separately : LiveTogetherType
deriving DecidableEq, Repr

/-! ## Dates and `datetime.strptime(v, "%Y-%m-%d")` -/

/-- A calendar date as produced by `datetime.date`. -/
structure Date where
  year : Nat
  month : Nat
  day : Nat
deriving DecidableEq, Repr

/-- Order key for comparing well-formed dates the way `datetime.date`
compares (month < 100 and day < 100 for every parsed date). -/
def Date.toKey (d : Date) : Nat := d.year * 10000 + d.month * 100 + d.day

def isLeapYear (y : Nat) : Bool :=
  (y % 4 == 0 && y % 100 != 0) || (y % 400 == 0)

def daysInMonth (y : Nat) (m : Nat) : Nat :=
  if m == 2 then (if isLeapYear y then 29 else 28)
  else if m == 4 || m == 6 || m == 9 || m == 11 then 30
  else 31

def digitVal (c : Char) : Option Nat :=
  if c.isDigit then some (c.toNat - 48) else none

/-- `%Y`: exactly four digits. -/
def parseYear4 : List Char → Option (Nat × List Char)
  | a :: b :: c :: d :: rest =>
    match digitVal a, digitVal b, digitVal c, digitVal d with
    | some w, some x, some y, some z => some (w * 1000 + x * 100 + y * 10 + z, rest)
    | _, _, _, _ => none
  | _ => none

/-- `%m`, the CPython regex `1[0-2]|0[1-9]|[1-9]`: two digits when they form
01–12, otherwise a single digit 1–9. -/
def parseMonth2 : List Char → Option (Nat × List Char)
  | a :: b :: rest =>
    match digitVal a, digitVal b with
    | some x, some y =>
      if (x == 1 && y ≤ 2) || (x == 0 && 1 ≤ y) then some (10 * x + y, rest)
      else if 1 ≤ x then some (x, b :: rest)
      else none
    | some x, none =>
      if 1 ≤ x then some (x, b :: rest) else none
    | none, _ => none
  | [a] =>
    match digitVal a with
    | some x => if 1 ≤ x then some (x, []) else none
    | none => none
  | [] => none

/-- `%d`, the CPython regex `3[01]|[12]\x5cd|0[1-9]|[1-9]`. -/
def parseDay2 : List Char → Option (Nat × List Char)
  | a :: b :: rest =>
    match digitVal a, digitVal b with
    | some x, some y =>
      if (x == 3 && y ≤ 1) || x == 1 || x == 2 || (x == 0 && 1 ≤ y) then
        some (10 * x + y, rest)
      else if 1 ≤ x then some (x, b :: rest)
      else none
    | some x, none =>
      if 1 ≤ x then some (x, b :: rest) else none
    | none, _ => none
  | [a] =>
    match digitVal a with
    | some x => if 1 ≤ x then some (x, []) else none
    | none => none
  | [] => none

/-- `datetime.strptime(v, "%Y-%m-%d").date()`: four-digit year, dash,
1–2-digit month, dash, 1–2-digit day, nothing left over, and the calendar
constraints checked by the `datetime` constructor (year ≥ 1, day within the
month). Returns `none` where Python raises `ValueError`. -/
def strptimeYMD (s : String) : Option Date :=
  match parseYear4 s.toList with
  | none => none
  | some (y, rest1) =>
    match rest1 with
    | '-' :: rest2 =>
      match parseMonth2 rest2 with
      | none => none
      | some (m, rest3) =>
        match rest3 with
        | '-' :: rest4 =>
          match parseDay2 rest4 with
          | some (d, []) =>
            if 1 ≤ y ∧ d ≤ daysInMonth y m then some ⟨y, m, d⟩ else none
          | _ => none
        | _ => none
    | _ => none

/-- `DepartmentDiscontinueRequest.validate_discontinued_date`, parameterised
by `today` (`datetime.now().date()`).  The strictly-future check raises
inside the same `try`, so both failure modes surface the format message. -/
def DepartmentDiscontinueRequest.validate_discontinued_date (today : Date)
    (v : String) : Except String String :=
  match strptimeYMD v with
  | none => Except.error "discontinued_date must be YYYY-MM-DD"
  | some d =>
    if today.toKey < d.toKey then
      Except.error "discontinued_date must be YYYY-MM-DD"
    else Except.ok v

/-! ## Model structures and pydantic-style construction

Construction takes every field as an `Option` (`none` = not supplied),
rejects missing required fields, and runs the field validators, mirroring
pydantic `BaseModel` instantiation. -/

/-- `Address` (first definition; the later duplicate has the same fields). -/
structure Address where
  country_number : Option String
  zip_code : Option String
  pref : Option String
  city : Option String
  street : Option String
  building : Option String
  literal_yomi : Option String
deriving DecidableEq, Repr

/-- `AttachmentParams` as in scope where the dependent models are declared
(the first definition, with both fields required). -/
structure AttachmentParams where
  file_name : String
  content : String
deriving DecidableEq, Repr

/-- `DepartmentPartialUpdateRequest`: every field optional. -/
structure DepartmentPartialUpdateRequest where
  name : Option String
  position : Option Int
  code : Option String
  parent_id : Option String
deriving DecidableEq, Repr

/-- Constructing a `DepartmentPartialUpdateRequest`: no required field, and
`validate_name` runs on the supplied name. -/
def DepartmentPartialUpdateRequest.construct (name : Option String)
    (position : Option Int) (code : Option String) (parent_id : Option String) :
    Except String DepartmentPartialUpdateRequest :=
  match DepartmentPartialUpdateRequest.validate_name name with
  | Except.error e => Except.error e
  | Except.ok n => Except.ok ⟨n, position, code, parent_id⟩

/-- `EmploymentTypePartialUpdateRequest`: every field optional, no validator. -/
structure EmploymentTypePartialUpdateRequest where
  name : Option String
  code : Option String
deriving DecidableEq, Repr

def EmploymentTypePartialUpdateRequest.construct (name : Option String)
    (code : Option String) : Except String EmploymentTypePartialUpdateRequest :=
  Except.ok ⟨name, code⟩

/-- `JobTitlePartialUpdateRequest`: every field optional. -/
structure JobTitlePartialUpdateRequest where
  name : Option String
  rank : Option Int
  code : Option String
deriving DecidableEq, Repr

def JobTitlePartialUpdateRequest.construct (name : Option String)
    (rank : Option Int) (code : Option String) :
    Except String JobTitlePartialUpdateRequest :=
  match JobTitlePartialUpdateRequest.validate_rank rank with
  | Except.error e => Except.error e
  | Except.ok r => Except.ok ⟨name, r, code⟩

/-- `GradePartialUpdateRequest`: every field optional. -/
structure GradePartialUpdateRequest where
  name : Option String
  rank : Option Int
deriving DecidableEq, Repr

def GradePartialUpdateRequest.construct (name : Option String)
    (rank : Option Int) : Except String GradePartialUpdateRequest :=
  match GradePartialUpdateRequest.validate_rank rank with
  | Except.error e => Except.error e
  | Except.ok r => Except.ok ⟨name, r⟩

/-- `JobCategoryPartialUpdateRequest`: one optional field, no validator. -/
structure JobCategoryPartialUpdateRequest where
  name : Option String
deriving DecidableEq, Repr

def JobCategoryPartialUpdateRequest.construct (name : Option String) :
    Except String JobCategoryPartialUpdateRequest :=
  Except.ok ⟨name⟩

/-- Caller-supplied fields for the dependent models: one `Option` per
declared field of `DependentCreateRequest` / `DependentPartialUpdateRequest`
(both declare exactly the same field list). -/
structure DependentInput where
  relation_id : Option String
  is_spouse : Option Bool
  last_name : Option String
  first_name : Option String
  last_name_yomi : Option String
  first_name_yomi : Option String
  birth_at : Option String
  moved_at : Option String
  gender : Option String
  job : Option String
  basic_pension_number : Option String
  basic_pension_number_image : Option AttachmentParams
  live_together_type : Option LiveTogetherType
  address : Option Address
  tel_number : Option String
  handicapped_type : Option String
  handicapped_note_type : Option String
  handicapped_note_delivery_at : Option String
  handicapped_image : Option AttachmentParams
  remittance_to_relative : Option Bool
  remittance_image1 : Option AttachmentParams
  remittance_image2 : Option AttachmentParams
  remittance_image3 : Option AttachmentParams
  international_student : Option Bool
  international_student_image : Option AttachmentParams
  social_insurance_support_type : Option String
  income : Option Int
  monthly_income : Option Int
  soc_ins_qualified_at : Option String
  soc_ins_qualified_reason : Option String
  soc_ins_disqualified_at : Option String
  disqualified_reason_type : Option String
  disqualified_reason : Option String
  tax_law_support_type : Option String
  tax_deduction_income : Option Int
  tax_deduction_qualified_at : Option String
  tax_deduction_qualified_reason : Option String
  tax_deduction_disqualified_at : Option String
  tax_deduction_disqualified_reason_type : Option String
  tax_deduction_disqualified_reason : Option String
  maternity_handbook_image : Option AttachmentParams
  kinship_image : Option AttachmentParams
  code : Option String
deriving DecidableEq, Repr

/-- The input with every field omitted. -/
def DependentInput.empty : DependentInput :=
  ⟨none, none, none, none, none, none, none, none, none, none, none, none,
   none, none, none, none, none, none, none, none, none, none, none, none,
   none, none, none, none, none, none, none, none, none, none, none, none,
   none, none, none, none, none, none, none⟩

/-- `DependentCreateRequest`: six required fields, the rest optional;
`social_insurance_support_type` and `tax_law_support_type` default to
`"supported"`. -/
structure DependentCreateRequest where
  relation_id : String
  is_spouse : Option Bool
  last_name : String
  first_name : String
  last_name_yomi : Option String
  first_name_yomi : Option String
  birth_at : String
  moved_at : Option String
  gender : String
  job : Option String
  basic_pension_number : Option String
  basic_pension_number_image : Option AttachmentParams
  live_together_type : LiveTogetherType
  address : Option Address
  tel_number : Option String
  handicapped_type : Option String
  handicapped_note_type : Option String
  handicapped_note_delivery_at : Option String
  handicapped_image : Option AttachmentParams
  remittance_to_relative : Option Bool
  remittance_image1 : Option AttachmentParams
  remittance_image2 : Option AttachmentParams
  remittance_image3 : Option AttachmentParams
  international_student : Option Bool
  international_student_image : Option AttachmentParams
  social_insurance_support_type : Option String
  income : Option Int
  monthly_income : Option Int
  soc_ins_qualified_at : Option String
  soc_ins_qualified_reason : Option String
  soc_ins_disqualified_at : Option String
  disqualified_reason_type : Option String
  disqualified_reason : Option String
  tax_law_support_type : Option String
  tax_deduction_income : Option Int
  tax_deduction_qualified_at : Option String
  tax_deduction_qualified_reason : Option String
  tax_deduction_disqualified_at : Option String
  tax_deduction_disqualified_reason_type : Option String
  tax_deduction_disqualified_reason : Option String
  maternity_handbook_image : Option AttachmentParams
  kinship_image : Option AttachmentParams
  code : Option String
deriving DecidableEq, Repr

/-- `DependentPartialUpdateRequest`: declared with exactly the same field
list as the create model (the six "required" annotations included), but its
two support-type fields default to `None` and it declares no validator. -/
structure DependentPartialUpdateRequest where
  relation_id : String
  is_spouse : Option Bool
  last_name : String
  first_name : String
  last_name_yomi : Option String
  first_name_yomi : Option String
  birth_at : String
  moved_at : Option String
  gender : String
  job : Option String
  basic_pension_number : Option String
  basic_pension_number_image : Option AttachmentParams
  live_together_type : LiveTogetherType
  address : Option Address
  tel_number : Option String
  handicapped_type : Option String
  handicapped_note_type : Option String
  handicapped_note_delivery_at : Option String
  handicapped_image : Option AttachmentParams
  remittance_to_relative : Option Bool
  remittance_image1 : Option AttachmentParams
  remittance_image2 : Option AttachmentParams
  remittance_image3 : Option AttachmentParams
  international_student : Option Bool
  international_student_image : Option AttachmentParams
  social_insurance_support_type : Option String
  income : Option Int
  monthly_income : Option Int
  soc_ins_qualified_at : Option String
  soc_ins_qualified_reason : Option String
  soc_ins_disqualified_at : Option String
  disqualified_reason_type : Option String
  disqualified_reason : Option String
  tax_law_support_type : Option String
  tax_deduction_income : Option Int
  tax_deduction_qualified_at : Option String
  tax_deduction_qualified_reason : Option String
  tax_deduction_disqualified_at : Option String
  tax_deduction_disqualified_reason_type : Option String
  tax_deduction_disqualified_reason : Option String
  maternity_handbook_image : Option AttachmentParams
  kinship_image : Option AttachmentParams
  code : Option String
deriving DecidableEq, Repr

/-- Constructing a `DependentCreateRequest`: the six non-optional fields
must be supplied, `validate_gender` runs on the gender, and the two
support-type fields fall back to their `"supported"` default when omitted. -/
def DependentCreateRequest.construct (i : DependentInput) :
    Except String DependentCreateRequest :=
  match i.relation_id, i.last_name, i.first_name, i.birth_at, i.gender,
      i.live_together_type with
  | some rid, some ln, some fn, some ba, some g, some ltt =>
    match DependentCreateRequest.validate_gender g with
    | Except.error e => Except.error e
    | Except.ok g2 =>
      Except.ok ⟨rid, i.is_spouse, ln, fn, i.last_name_yomi, i.first_name_yomi,
        ba, i.moved_at, g2, i.job, i.basic_pension_number,
        i.basic_pension_number_image, ltt, i.address, i.tel_number,
        i.handicapped_type, i.handicapped_note_type,
        i.handicapped_note_delivery_at, i.handicapped_image,
        i.remittance_to_relative, i.remittance_image1, i.remittance_image2,
        i.remittance_image3, i.international_student,
        i.international_student_image,
        some (i.social_insurance_support_type.getD "supported"),
        i.income, i.monthly_income, i.soc_ins_qualified_at,
        i.soc_ins_qualified_reason, i.soc_ins_disqualified_at,
        i.disqualified_reason_type, i.disqualified_reason,
        some (i.tax_law_support_type.getD "supported"),
        i.tax_deduction_income, i.tax_deduction_qualified_at,
        i.tax_deduction_qualified_reason, i.tax_deduction_disqualified_at,
        i.tax_deduction_disqualified_reason_type,
        i.tax_deduction_disqualified_reason, i.maternity_handbook_image,
        i.kinship_image, i.code⟩
  | _, _, _, _, _, _ => Except.error "field required"

/-- Constructing a `DependentPartialUpdateRequest`: the same six fields are
required, and no validator runs (in particular the gender is not checked). -/
def DependentPartialUpdateRequest.construct (i : DependentInput) :
    Except String DependentPartialUpdateRequest :=
  match i.relation_id, i.last_name, i.first_name, i.birth_at, i.gender,
      i.live_together_type with
  | some rid, some ln, some fn, some ba, some g, some ltt =>
    Except.ok ⟨rid, i.is_spouse, ln, fn, i.last_name_yomi, i.first_name_yomi,
      ba, i.moved_at, g, i.job, i.basic_pension_number,
      i.basic_pension_number_image, ltt, i.address, i.tel_number,
      i.handicapped_type, i.handicapped_note_type,
      i.handicapped_note_delivery_at, i.handicapped_image,
      i.remittance_to_relative, i.remittance_image1, i.remittance_image2,
      i.remittance_image3, i.international_student,
      i.international_student_image, i.social_insurance_support_type,
      i.income, i.monthly_income, i.soc_ins_qualified_at,
      i.soc_ins_qualified_reason, i.soc_ins_disqualified_at,
      i.disqualified_reason_type, i.disqualified_reason,
      i.tax_law_support_type, i.tax_deduction_income,
      i.tax_deduction_qualified_at, i.tax_deduction_qualified_reason,
      i.tax_deduction_disqualified_at,
      i.tax_deduction_disqualified_reason_type,
      i.tax_deduction_disqualified_reason, i.maternity_handbook_image,
      i.kinship_image, i.code⟩
  | _, _, _, _, _, _ => Except.error "field required"

/-- `DependentPartialUpdateRequest.has_required_patch_fields`: Python
truthiness of the six listed fields — the strings must be non-empty, and an
enum member (`live_together_type`) is always truthy. -/
def DependentPartialUpdateRequest.has_required_patch_fields
    (d : DependentPartialUpdateRequest) : Bool :=
  d.last_name != "" && d.first_name != "" && d.birth_at != "" &&
    d.gender != "" && true && d.relation_id != ""

/-! ## SmartHRClient operations

Each operation takes the network oracle `net` and returns the requests it
issued (in order) together with its outcome. -/

/-- `SmartHRClient._request`: one request; a 204 becomes the marker object
`{"status": 204, "message": "No Content"}`; otherwise `raise_for_status`
then `response.json()`. -/
def SmartHRClient._request (net : HttpRequest → HttpResponse)
    (method endpoint : String) (params : List (String × JValue))
    (body : Option JValue) : List HttpRequest × Except PyError JValue :=
  let req : HttpRequest := ⟨method, endpoint, params, body⟩
  let resp := net req
  if resp.status == 204 then
    ([req], Except.ok (JValue.jobj
      [("status", JValue.jnum 204), ("message", JValue.jstr "No Content")]))
  else
    match raiseForStatusE resp with
    | Except.error e => ([req], Except.error e)
    | Except.ok _ => ([req], respJson resp)

/-- The pattern of the operations that call `requests.<method>` directly:
one request, `raise_for_status`, then `response.json()` (no 204 marker). -/
def directJsonRequest (net : HttpRequest → HttpResponse)
    (method path : String) (params : List (String × JValue))
    (body : Option JValue) : List HttpRequest × Except PyError JValue :=
  let req : HttpRequest := ⟨method, path, params, body⟩
  let resp := net req
  match raiseForStatusE resp with
  | Except.error e => ([req], Except.error e)
  | Except.ok _ => ([req], respJson resp)

/-- `if v:` guard used for optional query parameters: the parameter is added
only when supplied and truthy (a non-empty string). -/
def addParamIf (ps : List (String × JValue)) (k : String) (v : Option String) :
    List (String × JValue) :=
  match v with
  | some s => if s == "" then ps else ps ++ [(k, JValue.jstr s)]
  | none => ps

/-- `SmartHRClient.delete_crew`: one DELETE, `raise_for_status`, and the
method returns `None`. -/
def SmartHRClient.delete_crew (net : HttpRequest → HttpResponse)
    (crew_id : String) : List HttpRequest × Except PyError JValue :=
  let req : HttpRequest := ⟨"DELETE", "/v1/crews/" ++ crew_id, [], none⟩
  let resp := net req
  match raiseForStatusE resp with
  | Except.error e => ([req], Except.error e)
  | Except.ok _ => ([req], Except.ok JValue.jnull)

/-- `SmartHRClient.delete_job_title`: a DELETE on the job title followed —
as written in the source — by a GET on `/v1/employment_types` whose JSON is
returned. -/
def SmartHRClient.delete_job_title (net : HttpRequest → HttpResponse)
    (job_title_id : String) : List HttpRequest × Except PyError JValue :=
  let req1 : HttpRequest := ⟨"DELETE", "/v1/job_titles/" ++ job_title_id, [], none⟩
  let resp1 := net req1
  match raiseForStatusE resp1 with
  | Except.error e => ([req1], Except.error e)
  | Except.ok _ =>
    let req2 : HttpRequest := ⟨"GET", "/v1/employment_types", [], none⟩
    let resp2 := net req2
    match raiseForStatusE resp2 with
    | Except.error e => ([req1, req2], Except.error e)
    | Except.ok _ => ([req1, req2], respJson resp2)

/-- `SmartHRClient.delete_employment_type` (both duplicate definitions are
identical): one DELETE, `raise_for_status`, returns `None`. -/
def SmartHRClient.delete_employment_type (net : HttpRequest → HttpResponse)
    (employment_type_id : String) : List HttpRequest × Except PyError JValue :=
  let req : HttpRequest :=
    ⟨"DELETE", "/v1/employment_types/" ++ employment_type_id, [], none⟩
  let resp := net req
  match raiseForStatusE resp with
  | Except.error e => ([req], Except.error e)
  | Except.ok _ => ([req], Except.ok JValue.jnull)

/-- `SmartHRClient.delete_grade`: one DELETE with the response ignored — the
source never calls `raise_for_status` here — and the method returns `None`. -/
def SmartHRClient.delete_grade (net : HttpRequest → HttpResponse)
    (grade_id : String) : List HttpRequest × Except PyError JValue :=
  let req : HttpRequest := ⟨"DELETE", "/v1/grades/" ++ grade_id, [], none⟩
  let _resp := net req
  ([req], Except.ok JValue.jnull)

/-- `SmartHRClient.delete_dependent`: delegates to `_request` and discards
its result, so the method returns `None` on success. -/
def SmartHRClient.delete_dependent (net : HttpRequest → HttpResponse)
    (crew_id dependent_id : String) : List HttpRequest × Except PyError JValue :=
  let r := SmartHRClient._request net "DELETE"
    ("/v1/crews/" ++ crew_id ++ "/dependents/" ++ dependent_id) [] none
  match r.2 with
  | Except.error e => (r.1, Except.error e)
  | Except.ok _ => (r.1, Except.ok JValue.jnull)

/-- `SmartHRClient.discontinue_department`: parse the date (a `ValueError`
propagates on malformed input), reject dates on or after `today` before any
request, then build the payload through the model and issue one POST. -/
def SmartHRClient.discontinue_department (today : Date)
    (net : HttpRequest → HttpResponse) (department_id discontinued_date : String) :
    List HttpRequest × Except PyError JValue :=
  match strptimeYMD discontinued_date with
  | none =>
    ([], Except.error (PyError.valueError "time data does not match format"))
  | some target_date =>
    if today.toKey ≤ target_date.toKey then
      ([], Except.error (PyError.valueError
        "discontinued_date must be strictly before today"))
    else
      match DepartmentDiscontinueRequest.validate_discontinued_date today
          discontinued_date with
      | Except.error m => ([], Except.error (PyError.valueError m))
      | Except.ok v =>
        let req : HttpRequest :=
          ⟨"POST", "/v1/departments/" ++ department_id ++ "/discontinue", [],
            some (JValue.jobj [("discontinued_date", JValue.jstr v)])⟩
        let resp := net req
        match raiseForStatusE resp with
        | Except.error e => ([req], Except.error e)
        | Except.ok _ =>
          ([req], Except.ok (JValue.jobj
            [("status", JValue.jnum resp.status),
             ("message", JValue.jstr "Department discontinued successfully")]))

/-! ## List operations and their signature defaults -/

def list_crews_default_page : Int := 1
def list_crews_default_per_page : Int := 10
def list_departments_default_page : Int := 1
def list_departments_default_per_page : Int := 10
def list_employment_types_default_page : Int := 1
def list_employment_types_default_per_page : Int := 10
def list_job_titles_default_page : Int := 1
def list_job_titles_default_per_page : Int := 10
def list_grades_default_page : Int := 1
def list_grades_default_per_page : Int := 10
def list_job_categories_default_page : Int := 1
def list_job_categories_default_per_page : Int := 10
def list_dependents_default_page : Int := 1
def list_dependents_default_per_page : Int := 10
def list_relations_default_page : Int := 1

/-- `list_relations` declares `per_page: int = 100` in its signature. -/
def list_relations_default_per_page : Int := 100

/-- The query dict built inside `SmartHRClient.list_crews`: `page` and
`per_page` first, then each truthy optional filter, then `params.update(kwargs)`. -/
def SmartHRClient.list_crews_params (page per_page : Int)
    (emp_code emp_type employment_type_id emp_status gender entered_at_from
      entered_at_to resigned_at_from resigned_at_to department_id : Option String)
    (kwargs : List (String × JValue)) : List (String × JValue) :=
  let ps := [("page", JValue.jnum page), ("per_page", JValue.jnum per_page)]
  let ps := addParamIf ps "emp_code" emp_code
  let ps := addParamIf ps "emp_type" emp_type
  let ps := addParamIf ps "employment_type_id" employment_type_id
  let ps := addParamIf ps "emp_status" emp_status
  let ps := addParamIf ps "gender" gender
  let ps := addParamIf ps "entered_at_from" entered_at_from
  let ps := addParamIf ps "entered_at_to" entered_at_to
  let ps := addParamIf ps "resigned_at_from" resigned_at_from
  let ps := addParamIf ps "resigned_at_to" resigned_at_to
  let ps := addParamIf ps "department_id" department_id
  dictUpdate ps kwargs

/-- `SmartHRClient.list_crews`: one GET on `/v1/crews` with the params
above. -/
def SmartHRClient.list_crews (net : HttpRequest → HttpResponse)
    (page per_page : Int)
    (emp_code emp_type employment_type_id emp_status gender entered_at_from
      entered_at_to resigned_at_from resigned_at_to department_id : Option String)
    (kwargs : List (String × JValue)) : List HttpRequest × Except PyError JValue :=
  directJsonRequest net "GET" "/v1/crews"
    (SmartHRClient.list_crews_params page per_page emp_code emp_type
      employment_type_id emp_status gender entered_at_from entered_at_to
      resigned_at_from resigned_at_to department_id kwargs) none

/-- `list_crews` called with every defaultable argument omitted. -/
def SmartHRClient.list_crews_omitted (net : HttpRequest → HttpResponse) :
    List HttpRequest × Except PyError JValue :=
  SmartHRClient.list_crews net list_crews_default_page
    list_crews_default_per_page none none none none none none none none none
    none []

/-- `SmartHRClient.list_departments`: one GET on `/v1/departments` with
`page`, `per_page` and the truthy `code` / `sort` filters. -/
def SmartHRClient.list_departments (net : HttpRequest → HttpResponse)
    (page per_page : Int) (code sort : Option String) :
    List HttpRequest × Except PyError JValue :=
  let ps := [("page", JValue.jnum page), ("per_page", JValue.jnum per_page)]
  let ps := addParamIf ps "code" code
  let ps := addParamIf ps "sort" sort
  directJsonRequest net "GET" "/v1/departments" ps none

def SmartHRClient.list_departments_omitted (net : HttpRequest → HttpResponse) :
    List HttpRequest × Except PyError JValue :=
  SmartHRClient.list_departments net list_departments_default_page
    list_departments_default_per_page none none

/-- `SmartHRClient.list_employment_types`: of the two definitions in the
source the second shadows the first, and the second builds its params dict
but then ends — it issues no request and returns `None`. -/
def SmartHRClient.list_employment_types (_net : HttpRequest → HttpResponse)
    (page per_page : Int) : List HttpRequest × Except PyError JValue :=
  let _ps := [("page", JValue.jnum page), ("per_page", JValue.jnum per_page)]
  ([], Except.ok JValue.jnull)

def SmartHRClient.list_employment_types_omitted
    (net : HttpRequest → HttpResponse) : List HttpRequest × Except PyError JValue :=
  SmartHRClient.list_employment_types net list_employment_types_default_page
    list_employment_types_default_per_page

/-- `SmartHRClient.list_job_titles`: one GET on `/v1/job_titles`. -/
def SmartHRClient.list_job_titles (net : HttpRequest → HttpResponse)
    (page per_page : Int) (sort : Option String) :
    List HttpRequest × Except PyError JValue :=
  let ps := [("page", JValue.jnum page), ("per_page", JValue.jnum per_page)]
  let ps := addParamIf ps "sort" sort
  directJsonRequest net "GET" "/v1/job_titles" ps none

def SmartHRClient.list_job_titles_omitted (net : HttpRequest → HttpResponse) :
    List HttpRequest × Except PyError JValue :=
  SmartHRClient.list_job_titles net list_job_titles_default_page
    list_job_titles_default_per_page none

/-- `SmartHRClient.list_grades`: one GET on `/v1/grades`. -/
def SmartHRClient.list_grades (net : HttpRequest → HttpResponse)
    (page per_page : Int) (sort : Option String) :
    List HttpRequest × Except PyError JValue :=
  let ps := [("page", JValue.jnum page), ("per_page", JValue.jnum per_page)]
  let ps := addParamIf ps "sort" sort
  directJsonRequest net "GET" "/v1/grades" ps none

def SmartHRClient.list_grades_omitted (net : HttpRequest → HttpResponse) :
    List HttpRequest × Except PyError JValue :=
  SmartHRClient.list_grades net list_grades_default_page
    list_grades_default_per_page none

/-- `SmartHRClient.list_job_categories`: one GET via `_request`. -/
def SmartHRClient.list_job_categories (net : HttpRequest → HttpResponse)
    (page per_page : Int) (sort : Option String) :
    List HttpRequest × Except PyError JValue :=
  let ps := [("page", JValue.jnum page), ("per_page", JValue.jnum per_page)]
  let ps := addParamIf ps "sort" sort
  SmartHRClient._request net "GET" "/v1/job_categories" ps none

def SmartHRClient.list_job_categories_omitted
    (net : HttpRequest → HttpResponse) : List HttpRequest × Except PyError JValue :=
  SmartHRClient.list_job_categories net list_job_categories_default_page
    list_job_categories_default_per_page none

/-- The params dict of `list_dependents`:
`{"page": page, "per_page": per_page, **kwargs}`. -/
def SmartHRClient.list_dependents_params (page per_page : Int)
    (kwargs : List (String × JValue)) : List (String × JValue) :=
  dictUpdate [("page", JValue.jnum page), ("per_page", JValue.jnum per_page)]
    kwargs

/-- `SmartHRClient.list_dependents`: one GET via `_request`; a dict response
whose `dependents` entry equals `[]` is replaced by an informational object;
every other success passes through; errors re-raise unchanged. -/
def SmartHRClient.list_dependents (net : HttpRequest → HttpResponse)
    (crew_id : String) (page per_page : Int)
    (kwargs : List (String × JValue)) : List HttpRequest × Except PyError JValue :=
  let r := SmartHRClient._request net "GET"
    ("/v1/crews/" ++ crew_id ++ "/dependents")
    (SmartHRClient.list_dependents_params page per_page kwargs) none
  match r.2 with
  | Except.error e => (r.1, Except.error e)
  | Except.ok v =>
    if getsEmptyList v "dependents" then
      (r.1, Except.ok (JValue.jobj
        [("message", JValue.jstr "No dependents are registered for this crew"),
         ("dependents", JValue.jarr [])]))
    else (r.1, Except.ok v)

def SmartHRClient.list_dependents_omitted (net : HttpRequest → HttpResponse)
    (crew_id : String) : List HttpRequest × Except PyError JValue :=
  SmartHRClient.list_dependents net crew_id list_dependents_default_page
    list_dependents_default_per_page []

/-- `SmartHRClient.list_relations`: one GET on `/v1/dependent_relations`. -/
def SmartHRClient.list_relations (net : HttpRequest → HttpResponse)
    (page per_page : Int) : List HttpRequest × Except PyError JValue :=
  let ps := [("page", JValue.jnum page), ("per_page", JValue.jnum per_page)]
  directJsonRequest net "GET" "/v1/dependent_relations" ps none

def SmartHRClient.list_relations_omitted (net : HttpRequest → HttpResponse) :
    List HttpRequest × Except PyError JValue :=
  SmartHRClient.list_relations net list_relations_default_page
    list_relations_default_per_page

/-! ## Concrete responses used to exercise the operations -/

/-- A 204 No Content response with an empty, non-JSON body. -/
def resp204 : HttpResponse := ⟨204, "", none⟩

/-- A 404 response whose body is not JSON. -/
def resp404 : HttpResponse := ⟨404, "not found", none⟩

/-- A plain 200 response carrying the empty JSON object. -/
def respOkEmpty : HttpResponse := ⟨200, "{}", some (JValue.jobj [])⟩

/-- A 200 response whose body is `{"dependents": [], "page": 1}`. -/
def respDependentsExtra : HttpResponse :=
  ⟨200, "\x7b\x7d", some (JValue.jobj
    [("dependents", JValue.jarr []), ("page", JValue.jnum 1)])⟩

/-- A 200 response whose body is exactly `{"dependents": []}`. -/
def respDependentsEmpty : HttpResponse :=
  ⟨200, "\x7b\x7d", some (JValue.jobj [("dependents", JValue.jarr [])])⟩

/-- A dependent input supplying exactly the six required fields, with a
gender outside the two accepted literals. -/
def dependentInputOtherGender : DependentInput :=
  ⟨some "rel-1", none, some "Yamada", some "Taro", none, none,
   some "1990-01-01", none, some "other", none, none, none,
   some LiveTogetherType.living_together, none, none, none, none, none,
   none, none, none, none, none, none, none, none, none, none, none, none,
   none, none, none, none, none, none, none, none, none, none, none, none,
   none⟩

/-! ## Lemmas about `dictUpdate` lookups -/

theorem updEntry_fst (upd : List (String × JValue)) (p : String × JValue) :
    (updEntry upd p).1 = p.1 := by
  unfold updEntry
  cases upd.find? (fun q => q.1 == p.1) <;> rfl

theorem option_none_or (o : Option α) : Option.or none o = o := rfl

theorem option_some_or (a : α) (o : Option α) :
    Option.or (some a) o = some a := rfl

theorem find?_map_updEntry_none (base upd : List (String × JValue))
    (k : String) (hb : (base.any fun p => p.1 == k) = false) :
    (base.map (updEntry upd)).find? (fun p => p.1 == k) = none := by
  induction base with
  | nil => rfl
  | cons p rest ih =>
    have h12 : (p.1 == k) = false ∧ (rest.any fun p => p.1 == k) = false := by
      constructor
      · cases hx : (p.1 == k)
        · rfl
        · simp [List.any_cons, hx] at hb
      · cases hx : (rest.any fun p => p.1 == k)
        · rfl
        · simp [List.any_cons, hx] at hb
    have hx : ((updEntry upd p).1 == k) = false := by
      rw [updEntry_fst]
      exact h12.1
    simp only [List.map_cons, List.find?_cons, hx]
    exact ih h12.2

theorem find?_map_updEntry_some (base upd : List (String × JValue))
    (k : String) (qv : String × JValue)
    (hf : upd.find? (fun q => q.1 == k) = some qv)
    (hb : (base.any fun p => p.1 == k) = true) :
    (base.map (updEntry upd)).find? (fun p => p.1 == k) = some (k, qv.2) := by
  induction base with
  | nil => simp at hb
  | cons p rest ih =>
    cases hpk : (p.1 == k) with
    | true =>
      have hhead : updEntry upd p = (k, qv.2) := by
        unfold updEntry
        rw [eq_of_beq hpk, hf]
      have hx : ((updEntry upd p).1 == k) = true := by
        rw [hhead]
        simp
      simp only [List.map_cons, List.find?_cons, hx]
      rw [hhead]
    | false =>
      have hrest : (rest.any fun p => p.1 == k) = true := by
        have hb2 := hb
        simp only [List.any_cons, Bool.or_eq_true] at hb2
        rcases hb2 with h | h
        · rw [hpk] at h
          cases h
        · exact h
      have hx : ((updEntry upd p).1 == k) = false := by
        rw [updEntry_fst]
        exact hpk
      simp only [List.map_cons, List.find?_cons, hx]
      exact ih hrest

theorem lookupP_filter_keptEntry (base upd : List (String × JValue))
    (k : String) (hb : (base.any fun p => p.1 == k) = false) :
    lookupP k (upd.filter (keptEntry base)) = lookupP k upd := by
  induction upd with
  | nil => rfl
  | cons q rest ih =>
    cases hqk : (q.1 == k) with
    | true =>
      have hkeep : keptEntry base q = true := by
        unfold keptEntry
        rw [eq_of_beq hqk, hb]
        rfl
      rw [List.filter_cons, if_pos hkeep]
      unfold lookupP
      simp only [List.find?_cons, hqk]
    | false =>
      cases hkeep : keptEntry base q
      · rw [List.filter_cons, if_neg (by simp [hkeep])]
        unfold lookupP
        simp only [List.find?_cons, hqk]
        exact ih
      · rw [List.filter_cons, if_pos hkeep]
        unfold lookupP
        simp only [List.find?_cons, hqk]
        exact ih

/-- Any key carried by the update dict ends up in the merged dict with the
update value — both when it overrides a key of `base` and when it is a
fresh key appended after `base`. -/
theorem lookupP_dictUpdate (base upd : List (String × JValue)) (k : String)
    (v : JValue) (h : lookupP k upd = some v) :
    lookupP k (dictUpdate base upd) = some v := by
  obtain ⟨qv, hf, hv⟩ :
      ∃ qv, upd.find? (fun q => q.1 == k) = some qv ∧ qv.2 = v := by
    unfold lookupP at h
    cases hfind : upd.find? (fun q => q.1 == k) with
    | none => rw [hfind] at h; simp at h
    | some qv => rw [hfind] at h; simp at h; exact ⟨qv, rfl, h⟩
  cases hany : (base.any fun p => p.1 == k)
  · have h1 := find?_map_updEntry_none base upd k hany
    have h2 := (lookupP_filter_keptEntry base upd k hany).trans h
    unfold dictUpdate lookupP
    rw [List.find?_append, h1, option_none_or]
    unfold lookupP at h2
    exact h2
  · have h1 := find?_map_updEntry_some base upd k qv hf hany
    unfold dictUpdate lookupP
    rw [List.find?_append, h1, option_some_or]
    simp [hv]

/-! ## Trace lemmas: every branch of an operation issues the same requests -/

theorem directJsonRequest_fst (net : HttpRequest → HttpResponse)
    (method path : String) (params : List (String × JValue))
    (body : Option JValue) :
    (directJsonRequest net method path params body).1 =
      [⟨method, path, params, body⟩] := by
  unfold directJsonRequest
  dsimp only
  split <;> rfl

theorem request_fst (net : HttpRequest → HttpResponse)
    (method endpoint : String) (params : List (String × JValue))
    (body : Option JValue) :
    (SmartHRClient._request net method endpoint params body).1 =
      [⟨method, endpoint, params, body⟩] := by
  unfold SmartHRClient._request
  dsimp only
  split
  · rfl
  · split <;> rfl

/-! ## Claim theorems -/

/-- C1: the claim says every operation issues exactly one HTTP request, in
particular `delete_job_title`.  In the code, `delete_job_title` issues a
DELETE on the job title and then a second GET on `/v1/employment_types`:
with every request answered 200, its trace holds two requests. -/
theorem claim_C1_delete_job_title_two_requests :
    (SmartHRClient.delete_job_title (constNet respOkEmpty) "jt1").1 =
      [⟨"DELETE", "/v1/job_titles/jt1", [], none⟩,
       ⟨"GET", "/v1/employment_types", [], none⟩] := rfl

/-- C2: the claim says every non-2xx/204 status yields an HTTPError-kind
failure, including in `delete_grade`.  In the code `delete_grade` never
calls `raise_for_status`: on a 404 response it still returns `None`
normally, even though `raise_for_status` on that same response would have
raised `HTTPError(404, body)`. -/
theorem claim_C2_delete_grade_swallows_404 :
    SmartHRClient.delete_grade (constNet resp404) "g1" =
      ([⟨"DELETE", "/v1/grades/g1", [], none⟩], Except.ok JValue.jnull) ∧
    raiseForStatusE resp404 =
      Except.error (PyError.httpError 404 "not found") := ⟨rfl, rfl⟩

/-- C3 counterexample: the claim says every delete-style operation maps a
204 to the normalized marker object and never returns null; but
`delete_crew` on a 204 returns `None` (null), not the marker. -/
theorem claim_C3_counterexample :
    (SmartHRClient.delete_crew (constNet resp204) "c1").2 =
      Except.ok JValue.jnull ∧
    (SmartHRClient.delete_crew (constNet resp204) "c1").2 ≠
      Except.ok (JValue.jobj
        [("status", JValue.jnum 204), ("message", JValue.jstr "No Content")]) := by
  constructor
  · rfl
  · intro hc
    rw [show (SmartHRClient.delete_crew (constNet resp204) "c1").2 =
      Except.ok JValue.jnull from rfl] at hc
    exact JValue.noConfusion (Except.ok.inj hc)

/-- C3 amended: on an all-204 network no delete-style operation raises or
attempts JSON parsing, and the `_request` helper alone produces the
`{"status": 204, "message": "No Content"}` marker; the delete operations
themselves (`delete_crew`, `delete_employment_type`, `delete_grade`,
`delete_dependent`) return null. -/
theorem claim_C3_amended (resp : HttpResponse) (h : resp.status = 204)
    (method endpoint : String) (params : List (String × JValue))
    (body : Option JValue) (cid eid gid crid did : String) :
    (SmartHRClient._request (constNet resp) method endpoint params body).2 =
      Except.ok (JValue.jobj
        [("status", JValue.jnum 204), ("message", JValue.jstr "No Content")]) ∧
    (SmartHRClient.delete_crew (constNet resp) cid).2 =
      Except.ok JValue.jnull ∧
    (SmartHRClient.delete_employment_type (constNet resp) eid).2 =
      Except.ok JValue.jnull ∧
    (SmartHRClient.delete_grade (constNet resp) gid).2 =
      Except.ok JValue.jnull ∧
    (SmartHRClient.delete_dependent (constNet resp) crid did).2 =
      Except.ok JValue.jnull := by
  obtain ⟨st, tx, jb⟩ := resp
  simp only at h
  subst h
  exact ⟨rfl, rfl, rfl, rfl, rfl⟩

/-- C3 amended, witnessed at a concrete 204 response and concrete ids. -/
theorem claim_C3_amended_witness :
    (SmartHRClient._request (constNet resp204) "DELETE" "/v1/crews/c1" []
        none).2 =
      Except.ok (JValue.jobj
        [("status", JValue.jnum 204), ("message", JValue.jstr "No Content")]) ∧
    (SmartHRClient.delete_crew (constNet resp204) "c1").2 =
      Except.ok JValue.jnull ∧
    (SmartHRClient.delete_employment_type (constNet resp204) "e1").2 =
      Except.ok JValue.jnull ∧
    (SmartHRClient.delete_grade (constNet resp204) "g1").2 =
      Except.ok JValue.jnull ∧
    (SmartHRClient.delete_dependent (constNet resp204) "c1" "d1").2 =
      Except.ok JValue.jnull :=
  claim_C3_amended resp204 rfl "DELETE" "/v1/crews/c1" [] none "c1" "e1" "g1"
    "c1" "d1"

/-- C5 counterexample: the claim says a date equal to today is rejected by
the model validator; in the code the check is a strict `>`, so validating
today's own date succeeds. -/
theorem claim_C5_counterexample :
    DepartmentDiscontinueRequest.validate_discontinued_date ⟨2026, 10, 12⟩
        "2026-10-12" = Except.ok "2026-10-12" ∧
    strptimeYMD "2026-10-12" = some ⟨2026, 10, 12⟩ ∧
    ¬ (Date.mk 2026 10 12).toKey < (Date.mk 2026 10 12).toKey := by
  refine ⟨rfl, rfl, ?_⟩
  decide

/-- C5 amended: the validator accepts exactly the strings that parse as
`YYYY-MM-DD` to a date less than or equal to today (same-day accepted,
strictly-future rejected). -/
theorem claim_C5_amended (today : Date) (v : String) :
    (DepartmentDiscontinueRequest.validate_discontinued_date today v).isOk =
      true ↔ ∃ d, strptimeYMD v = some d ∧ d.toKey ≤ today.toKey := by
  unfold DepartmentDiscontinueRequest.validate_discontinued_date
  cases hp : strptimeYMD v with
  | none =>
    constructor
    · intro hfalse
      exact absurd hfalse (by simp [Except.isOk, Except.toBool])
    · rintro ⟨d2, hd2, hle⟩
      exact Option.noConfusion hd2
  | some d =>
    dsimp only
    by_cases hlt : today.toKey < d.toKey
    · rw [if_pos hlt]
      constructor
      · intro hfalse
        exact absurd hfalse (by simp [Except.isOk, Except.toBool])
      · rintro ⟨d2, hd2, hle⟩
        injection hd2 with hdd
        subst hdd
        omega
    · rw [if_neg hlt]
      constructor
      · intro _
        exact ⟨d, rfl, by omega⟩
      · intro _
        rfl

theorem list_dependents_fst (net : HttpRequest → HttpResponse)
    (crew_id : String) (page per_page : Int)
    (kwargs : List (String × JValue)) :
    (SmartHRClient.list_dependents net crew_id page per_page kwargs).1 =
      [⟨"GET", "/v1/crews/" ++ crew_id ++ "/dependents",
        SmartHRClient.list_dependents_params page per_page kwargs, none⟩] := by
  unfold SmartHRClient.list_dependents
  dsimp only
  split
  · rw [request_fst]
  · split <;> rw [request_fst]

/-- C4 counterexample: the claim says every partial-update model accepts
all-omitted input and re-checks supplied fields with the create model's
validators; but the dependent partial-update model rejects the all-omitted
input (six fields are required), accepts a supplied gender of `"other"`,
and the create model's gender validator rejects that same value. -/
theorem claim_C4_counterexample :
    DependentPartialUpdateRequest.construct DependentInput.empty =
      Except.error "field required" ∧
    (DependentPartialUpdateRequest.construct dependentInputOtherGender).isOk =
      true ∧
    DependentCreateRequest.validate_gender "other" =
      Except.error "gender must be male or female" ∧
    (DependentCreateRequest.construct dependentInputOtherGender).isOk =
      false :=
  ⟨rfl, rfl, rfl, rfl⟩

/-- C4 amended: the department, employment-type, job-title, grade and
job-category partial-update models accept the all-omitted input and apply
the create model's validator to any supplied field; the dependent
partial-update model instead requires its six mandatory fields and runs no
gender validator — construction succeeds exactly when the six are supplied,
whatever the gender value. -/
theorem claim_C4_amended :
    (DepartmentPartialUpdateRequest.construct none none none none =
      Except.ok ⟨none, none, none, none⟩) ∧
    (EmploymentTypePartialUpdateRequest.construct none none =
      Except.ok ⟨none, none⟩) ∧
    (JobTitlePartialUpdateRequest.construct none none none =
      Except.ok ⟨none, none, none⟩) ∧
    (GradePartialUpdateRequest.construct none none =
      Except.ok ⟨none, none⟩) ∧
    (JobCategoryPartialUpdateRequest.construct none =
      Except.ok ⟨none⟩) ∧
    (∀ s : String,
      (DepartmentPartialUpdateRequest.validate_name (some s)).isOk =
        (DepartmentCreateRequest.validate_name s).isOk) ∧
    (∀ v : Int,
      (JobTitlePartialUpdateRequest.validate_rank (some v)).isOk =
        (JobTitleCreateRequest.validate_rank v).isOk) ∧
    (∀ v : Int,
      (GradePartialUpdateRequest.validate_rank (some v)).isOk =
        (GradeCreateRequest.validate_rank v).isOk) ∧
    (∀ i : DependentInput,
      (DependentPartialUpdateRequest.construct i).isOk =
        (i.relation_id.isSome && i.last_name.isSome && i.first_name.isSome &&
         i.birth_at.isSome && i.gender.isSome &&
         i.live_together_type.isSome)) := by
  refine ⟨rfl, rfl, rfl, rfl, rfl, ?_, ?_, ?_, ?_⟩
  · intro s
    unfold DepartmentPartialUpdateRequest.validate_name
      DepartmentCreateRequest.validate_name
    cases h : s.contains '/' <;> simp [h, Except.isOk, Except.toBool]
  · intro v
    unfold JobTitlePartialUpdateRequest.validate_rank
      JobTitleCreateRequest.validate_rank
    by_cases h : v < 1 ∨ v > 99999 <;>
      simp [h, Except.isOk, Except.toBool]
  · intro v
    unfold GradePartialUpdateRequest.validate_rank
      GradeCreateRequest.validate_rank
    by_cases h : v < 1 ∨ v > 99999 <;>
      simp [h, Except.isOk, Except.toBool]
  · intro i
    obtain ⟨rid, sp, ln, fn, lny, fny, ba, ma, g, job, bpn, bpni, ltt, ad,
      tel, ht, hnt, hnd, hi, rtr, ri1, ri2, ri3, ist, isi, sist, inc, minc,
      sqa, sqr, sda, drt, dr, tlst, tdi, tdqa, tdqr, tdda, tddrt, tddr, mhi,
      ki, code⟩ := i
    cases rid <;> cases ln <;> cases fn <;> cases ba <;> cases g <;>
      cases ltt <;> rfl

/-- C6: `discontinue_department` with a well-formed date on or after today
fails with a `ValueError` before issuing any request; with a strictly-past
date it issues exactly one POST to `/v1/departments/{id}/discontinue`. -/
theorem claim_C6_discontinue_preflight (today : Date)
    (net : HttpRequest → HttpResponse) (department_id v : String) (d : Date)
    (hp : strptimeYMD v = some d) :
    (today.toKey ≤ d.toKey →
      SmartHRClient.discontinue_department today net department_id v =
        ([], Except.error (PyError.valueError
          "discontinued_date must be strictly before today"))) ∧
    (d.toKey < today.toKey →
      (SmartHRClient.discontinue_department today net department_id v).1 =
        [⟨"POST", "/v1/departments/" ++ department_id ++ "/discontinue", [],
          some (JValue.jobj [("discontinued_date", JValue.jstr v)])⟩]) := by
  unfold SmartHRClient.discontinue_department
  rw [hp]
  dsimp only
  constructor
  · intro hge
    rw [if_pos hge]
  · intro hlt
    rw [if_neg (by omega)]
    unfold DepartmentDiscontinueRequest.validate_discontinued_date
    rw [hp]
    dsimp only
    rw [if_neg (by omega)]
    dsimp only
    split <;> rfl

/-- C6, witnessed with today = 2026-10-12: the same-day call issues nothing
and fails, the day-before call issues exactly the one POST. -/
theorem claim_C6_discontinue_preflight_witness :
    strptimeYMD "2026-10-11" = some ⟨2026, 10, 11⟩ ∧
    strptimeYMD "2026-10-12" = some ⟨2026, 10, 12⟩ ∧
    SmartHRClient.discontinue_department ⟨2026, 10, 12⟩
        (constNet respOkEmpty) "d1" "2026-10-12" =
      ([], Except.error (PyError.valueError
        "discontinued_date must be strictly before today")) ∧
    (SmartHRClient.discontinue_department ⟨2026, 10, 12⟩
        (constNet respOkEmpty) "d1" "2026-10-11").1 =
      [⟨"POST", "/v1/departments/d1/discontinue", [],
        some (JValue.jobj [("discontinued_date", JValue.jstr "2026-10-11")])⟩] := by
  refine ⟨rfl, rfl, ?_, ?_⟩
  · exact (claim_C6_discontinue_preflight ⟨2026, 10, 12⟩ (constNet respOkEmpty)
      "d1" "2026-10-12" ⟨2026, 10, 12⟩ rfl).1 (by decide)
  · exact (claim_C6_discontinue_preflight ⟨2026, 10, 12⟩ (constNet respOkEmpty)
      "d1" "2026-10-11" ⟨2026, 10, 11⟩ rfl).2 (by decide)

/-- C7 counterexample: the claim says every list operation defaults
`per_page` to 10, including `list_relations`; but `list_relations` declares
`per_page: int = 100`, and its omitted-argument call sends `per_page=100`. -/
theorem claim_C7_counterexample :
    list_relations_default_per_page = 100 ∧
    (SmartHRClient.list_relations_omitted (constNet respOkEmpty)).1 =
      [⟨"GET", "/v1/dependent_relations",
        [("page", JValue.jnum 1), ("per_page", JValue.jnum 100)], none⟩] ∧
    (100 : Int) ≠ 10 := by
  refine ⟨rfl, rfl, by decide⟩

/-- C7 amended: every list operation accepts `page` and `per_page`; the
defaults are 1 and 10 for all of them except `list_relations`, whose
`per_page` default is 100.  Calls with those arguments omitted carry the
defaults as query parameters (`list_employment_types`, whose effective
definition issues no request, keeps the 1/10 defaults in its signature). -/
theorem claim_C7_amended (net : HttpRequest → HttpResponse)
    (crew_id : String) :
    (list_crews_default_page = 1 ∧ list_crews_default_per_page = 10) ∧
    (SmartHRClient.list_crews_omitted net).1 =
      [⟨"GET", "/v1/crews",
        [("page", JValue.jnum 1), ("per_page", JValue.jnum 10)], none⟩] ∧
    (list_departments_default_page = 1 ∧
      list_departments_default_per_page = 10) ∧
    (SmartHRClient.list_departments_omitted net).1 =
      [⟨"GET", "/v1/departments",
        [("page", JValue.jnum 1), ("per_page", JValue.jnum 10)], none⟩] ∧
    (list_employment_types_default_page = 1 ∧
      list_employment_types_default_per_page = 10) ∧
    SmartHRClient.list_employment_types_omitted net =
      ([], Except.ok JValue.jnull) ∧
    (list_job_titles_default_page = 1 ∧
      list_job_titles_default_per_page = 10) ∧
    (SmartHRClient.list_job_titles_omitted net).1 =
      [⟨"GET", "/v1/job_titles",
        [("page", JValue.jnum 1), ("per_page", JValue.jnum 10)], none⟩] ∧
    (list_grades_default_page = 1 ∧ list_grades_default_per_page = 10) ∧
    (SmartHRClient.list_grades_omitted net).1 =
      [⟨"GET", "/v1/grades",
        [("page", JValue.jnum 1), ("per_page", JValue.jnum 10)], none⟩] ∧
    (list_job_categories_default_page = 1 ∧
      list_job_categories_default_per_page = 10) ∧
    (SmartHRClient.list_job_categories_omitted net).1 =
      [⟨"GET", "/v1/job_categories",
        [("page", JValue.jnum 1), ("per_page", JValue.jnum 10)], none⟩] ∧
    (list_dependents_default_page = 1 ∧
      list_dependents_default_per_page = 10) ∧
    (SmartHRClient.list_dependents_omitted net crew_id).1 =
      [⟨"GET", "/v1/crews/" ++ crew_id ++ "/dependents",
        [("page", JValue.jnum 1), ("per_page", JValue.jnum 10)], none⟩] ∧
    (list_relations_default_page = 1 ∧
      list_relations_default_per_page = 100) ∧
    (SmartHRClient.list_relations_omitted net).1 =
      [⟨"GET", "/v1/dependent_relations",
        [("page", JValue.jnum 1), ("per_page", JValue.jnum 100)], none⟩] := by
  refine ⟨⟨rfl, rfl⟩, ?_, ⟨rfl, rfl⟩, ?_, ⟨rfl, rfl⟩, rfl, ⟨rfl, rfl⟩, ?_,
    ⟨rfl, rfl⟩, ?_, ⟨rfl, rfl⟩, ?_, ⟨rfl, rfl⟩, ?_, ⟨rfl, rfl⟩, ?_⟩
  · unfold SmartHRClient.list_crews_omitted SmartHRClient.list_crews
    rw [directJsonRequest_fst]
    rfl
  · unfold SmartHRClient.list_departments_omitted
      SmartHRClient.list_departments
    rw [directJsonRequest_fst]
    rfl
  · unfold SmartHRClient.list_job_titles_omitted SmartHRClient.list_job_titles
    rw [directJsonRequest_fst]
    rfl
  · unfold SmartHRClient.list_grades_omitted SmartHRClient.list_grades
    rw [directJsonRequest_fst]
    rfl
  · unfold SmartHRClient.list_job_categories_omitted
      SmartHRClient.list_job_categories
    rw [request_fst]
    rfl
  · unfold SmartHRClient.list_dependents_omitted
    rw [list_dependents_fst]
    rfl
  · unfold SmartHRClient.list_relations_omitted SmartHRClient.list_relations
    rw [directJsonRequest_fst]
    rfl

/-- C8: in all six JobTitle/Grade create, update and partial-update models,
a submitted integer rank validates exactly when it lies in `[1, 99999]`. -/
theorem claim_C8_rank_validation (v : Int) :
    ((JobTitleCreateRequest.validate_rank v).isOk = true ↔
      1 ≤ v ∧ v ≤ 99999) ∧
    ((JobTitleUpdateRequest.validate_rank v).isOk = true ↔
      1 ≤ v ∧ v ≤ 99999) ∧
    ((JobTitlePartialUpdateRequest.validate_rank (some v)).isOk = true ↔
      1 ≤ v ∧ v ≤ 99999) ∧
    ((GradeCreateRequest.validate_rank v).isOk = true ↔
      1 ≤ v ∧ v ≤ 99999) ∧
    ((GradeUpdateRequest.validate_rank v).isOk = true ↔
      1 ≤ v ∧ v ≤ 99999) ∧
    ((GradePartialUpdateRequest.validate_rank (some v)).isOk = true ↔
      1 ≤ v ∧ v ≤ 99999) := by
  refine ⟨?_, ?_, ?_, ?_, ?_, ?_⟩ <;>
    by_cases h : v < 1 ∨ v > 99999 <;>
      simp [JobTitleCreateRequest.validate_rank,
        JobTitleUpdateRequest.validate_rank,
        JobTitlePartialUpdateRequest.validate_rank,
        GradeCreateRequest.validate_rank, GradeUpdateRequest.validate_rank,
        GradePartialUpdateRequest.validate_rank, h, Except.isOk,
        Except.toBool] <;>
      omega

/-- C9 counterexample: the claim says only the exact remote body
`{"dependents": []}` is normalized and every other successful response is
returned unchanged; but a 200 response with body
`{"dependents": [], "page": 1}` is also replaced by the informational
object, so it is not returned unchanged. -/
theorem claim_C9_counterexample :
    respDependentsExtra.jsonBody = some (JValue.jobj
      [("dependents", JValue.jarr []), ("page", JValue.jnum 1)]) ∧
    (SmartHRClient.list_dependents (constNet respDependentsExtra) "c1" 1 10
        []).2 =
      Except.ok (JValue.jobj
        [("message", JValue.jstr "No dependents are registered for this crew"),
         ("dependents", JValue.jarr [])]) ∧
    JValue.jobj [("message",
        JValue.jstr "No dependents are registered for this crew"),
      ("dependents", JValue.jarr [])] ≠
      JValue.jobj [("dependents", JValue.jarr []), ("page", JValue.jnum 1)] := by
  refine ⟨rfl, rfl, ?_⟩
  intro hc
  have h1 := JValue.jobj.inj hc
  have h2 := (List.cons.inj h1).1
  have h3 := (Prod.mk.injEq _ _ _ _).mp h2
  exact absurd h3.1 (by decide)

/-- C9 amended: a successful `list_dependents` response is replaced by the
informational message-plus-empty-list object exactly when it is a dict
whose `dependents` entry equals the empty list (whatever other keys it
carries); every other successful response is returned unchanged. -/
theorem claim_C9_amended (net : HttpRequest → HttpResponse)
    (crew_id : String) (page per_page : Int)
    (kwargs : List (String × JValue)) (v : JValue)
    (hok : (SmartHRClient._request net "GET"
        ("/v1/crews/" ++ crew_id ++ "/dependents")
        (SmartHRClient.list_dependents_params page per_page kwargs)
        none).2 = Except.ok v) :
    (SmartHRClient.list_dependents net crew_id page per_page kwargs).2 =
      (if getsEmptyList v "dependents" then
        Except.ok (JValue.jobj
          [("message",
            JValue.jstr "No dependents are registered for this crew"),
           ("dependents", JValue.jarr [])])
      else Except.ok v) := by
  unfold SmartHRClient.list_dependents
  dsimp only
  rw [hok]
  dsimp only
  cases hge : getsEmptyList v "dependents" <;> simp [hge]

/-- C9 amended, witnessed: with the remote body exactly
`{"dependents": []}`, the hypothesis holds by computation and the
normalization fires. -/
theorem claim_C9_amended_witness :
    (SmartHRClient._request (constNet respDependentsEmpty) "GET"
        ("/v1/crews/" ++ "c1" ++ "/dependents")
        (SmartHRClient.list_dependents_params 1 10 []) none).2 =
      Except.ok (JValue.jobj [("dependents", JValue.jarr [])]) ∧
    (SmartHRClient.list_dependents (constNet respDependentsEmpty) "c1" 1 10
        []).2 =
      (if getsEmptyList (JValue.jobj [("dependents", JValue.jarr [])])
          "dependents" then
        Except.ok (JValue.jobj
          [("message",
            JValue.jstr "No dependents are registered for this crew"),
           ("dependents", JValue.jarr [])])
      else Except.ok (JValue.jobj [("dependents", JValue.jarr [])])) :=
  ⟨rfl, claim_C9_amended (constNet respDependentsEmpty) "c1" 1 10 []
    (JValue.jobj [("dependents", JValue.jarr [])]) rfl⟩

/-- C10: in `list_crews` and `list_dependents` the extra keyword arguments
are merged into the query dict after the declared parameters, so any key
they carry — including `page` or `per_page` — ends up in the issued request
with the kwargs value, and arbitrary additional keys pass through to the
request untouched. -/
theorem claim_C10_kwargs_merge (net : HttpRequest → HttpResponse)
    (page per_page : Int)
    (emp_code emp_type employment_type_id emp_status gender entered_at_from
      entered_at_to resigned_at_from resigned_at_to
      department_id : Option String)
    (crew_id : String) (kwargs : List (String × JValue)) (k : String)
    (v : JValue) (hk : lookupP k kwargs = some v) :
    lookupP k (SmartHRClient.list_crews_params page per_page emp_code
      emp_type employment_type_id emp_status gender entered_at_from
      entered_at_to resigned_at_from resigned_at_to department_id kwargs) =
      some v ∧
    lookupP k (SmartHRClient.list_dependents_params page per_page kwargs) =
      some v ∧
    (SmartHRClient.list_crews net page per_page emp_code emp_type
      employment_type_id emp_status gender entered_at_from entered_at_to
      resigned_at_from resigned_at_to department_id kwargs).1 =
      [⟨"GET", "/v1/crews",
        SmartHRClient.list_crews_params page per_page emp_code emp_type
          employment_type_id emp_status gender entered_at_from
          entered_at_to resigned_at_from resigned_at_to department_id
          kwargs, none⟩] ∧
    (SmartHRClient.list_dependents net crew_id page per_page kwargs).1 =
      [⟨"GET", "/v1/crews/" ++ crew_id ++ "/dependents",
        SmartHRClient.list_dependents_params page per_page kwargs, none⟩] := by
  refine ⟨?_, ?_, ?_, ?_⟩
  · unfold SmartHRClient.list_crews_params
    exact lookupP_dictUpdate _ kwargs k v hk
  · unfold SmartHRClient.list_dependents_params
    exact lookupP_dictUpdate _ kwargs k v hk
  · unfold SmartHRClient.list_crews
    exact directJsonRequest_fst net "GET" "/v1/crews" _ none
  · exact list_dependents_fst net crew_id page per_page kwargs

/-- C10, witnessed with kwargs `{"page": 5}` and the declared `page = 1`:
the issued query carries `page = 5`. -/
theorem claim_C10_kwargs_merge_witness :
    lookupP "page" [("page", JValue.jnum 5)] = some (JValue.jnum 5) ∧
    lookupP "page" (SmartHRClient.list_crews_params 1 10 none none none none
      none none none none none none [("page", JValue.jnum 5)]) =
      some (JValue.jnum 5) ∧
    lookupP "page" (SmartHRClient.list_dependents_params 1 10
      [("page", JValue.jnum 5)]) = some (JValue.jnum 5) :=
  ⟨rfl,
    (claim_C10_kwargs_merge (constNet respOkEmpty) 1 10 none none none none
      none none none none none none "c1" [("page", JValue.jnum 5)] "page"
      (JValue.jnum 5) rfl).1,
    (claim_C10_kwargs_merge (constNet respOkEmpty) 1 10 none none none none
      none none none none none none "c1" [("page", JValue.jnum 5)] "page"
      (JValue.jnum 5) rfl).2.1⟩
